import Mathlib

/-!
Verification development for the dataset-preparation pipeline of
`src/affordable_housing.py` (lines 10–89 of the source).  The pipeline
filters raw site-level rows, renames two columns, coerces monetary and
date columns, counts sites per project, deduplicates to one row per
project number, derives three columns, prunes per-site columns and drops
incomplete rows, producing two terminal tables (`lahd_projects` and
`lahd_projects_no_jobs_column`).

Embedding conventions:
* A pandas cell is modelled by `Cell`: `na` is a missing value (`NaN`
  or `NaT`), `num` a finite floating-point number abstracted as an exact
  rational (float rounding, including the `downcast` narrowing performed
  by `pd.to_numeric`, is outside the scope of the claims), `inf` a
  floating-point infinity with its sign, `date` a `Timestamp` at day
  granularity (all dates produced by the pipeline are at midnight).
* A table is a list of rows; a row is a structure whose fields are the
  columns that the claims mention.  Columns that the source drops at the
  pruning step (lines 70–80) and never reads (addresses, photos, …) are
  omitted from the row model.
* The `PROJECT NUMBER` column is modelled as a plain `String`: it is the
  key/identifier column of the published dataset.
* Library calls (`pd.to_numeric`, `pd.to_datetime`, string slicing) are
  modelled by executable Lean functions with the same observable
  behaviour on the value shapes the pipeline feeds them; `Timestamp`'s
  nanosecond range limit is modelled at year granularity (years 1678 to
  2261 are representable, values outside parse to `NaT`).
-/

/-- A table cell.  `na` models a pandas missing value (`NaN` / `NaT`);
`str` a string cell; `num` a finite float, abstracted as an exact
rational; `inf` a float infinity (`true` = positive); `date y m d` a
`Timestamp` at day granularity. -/
inductive Cell where
  | na : Cell
  | str : String → Cell
  | num : ℚ → Cell
  | inf : Bool → Cell
  | date : Nat → Nat → Nat → Cell
deriving DecidableEq, Repr

/-- Whether a cell is a pandas missing value (`NaN`/`NaT`).  Note that a
float infinity and the literal string `"NaT"` are NOT missing values:
`dropna` does not remove them. -/
def Cell.isNA : Cell → Bool
  | Cell.na => true
  | _ => false

/-- Value of a decimal digit character (code points 48 to 57). -/
def digitVal (c : Char) : Option Nat :=
  if 48 ≤ c.toNat ∧ c.toNat ≤ 57 then some (c.toNat - 48) else none

/-- Digit character of a value below ten. -/
def dch (n : Nat) : Char := Char.ofNat (48 + n % 10)

/-- Value of a big-endian digit list. -/
def digitsToNat (ds : List Nat) : Nat := ds.foldl (fun a d => 10 * a + d) 0

/-- Split a character list on a separator character (model of Python's
`str.split` for one-character separators, as used by `strptime`-style
parsing of `"%m/%d/%Y"`). -/
def splitOnChar (sep : Char) : List Char → List (List Char)
  | [] => [[]]
  | c :: rest =>
    match splitOnChar sep rest with
    | [] => [[]]
    | g :: gs => if c = sep then [] :: g :: gs else (c :: g) :: gs

/-- Parse a field of one to `maxLen` decimal digits. -/
def parseFieldNat (cs : List Char) (maxLen : Nat) : Option Nat :=
  if 1 ≤ cs.length ∧ cs.length ≤ maxLen then
    (cs.mapM digitVal).map digitsToNat
  else none

/-- Gregorian leap year. -/
def isLeap (y : Nat) : Bool := (y % 4 == 0 && y % 100 != 0) || y % 400 == 0

/-- Days in a month. -/
def daysInMonth (y m : Nat) : Nat :=
  if m = 2 then (if isLeap y then 29 else 28)
  else if m = 4 ∨ m = 6 ∨ m = 9 ∨ m = 11 then 30
  else 31

/-- Years whose days are representable as nanosecond `Timestamp`s
(`pd.Timestamp.min` is in 1677, `max` in 2262; modelled at whole-year
granularity).  Out-of-range dates make `pd.to_datetime(errors="coerce")`
return `NaT`. -/
def yearInRange (y : Nat) : Bool := 1678 ≤ y && y ≤ 2261

/-- Model of `pd.to_datetime(s, format="%m/%d/%Y", errors="coerce")` on a
string cell: exact three-component month/day/year form, one or two digit
month and day, up to four digit year, validated against the calendar and
the `Timestamp` range; `none` means the result is `NaT`. -/
def parseMDY (s : String) : Option (Nat × Nat × Nat) :=
  match splitOnChar '/' s.data with
  | [ms, ds, ys] =>
    match parseFieldNat ms 2, parseFieldNat ds 2, parseFieldNat ys 4 with
    | some m, some d, some y =>
      if 1 ≤ m ∧ m ≤ 12 ∧ 1 ≤ d ∧ d ≤ daysInMonth y m ∧ yearInRange y = true
      then some (y, m, d) else none
    | _, _, _ => none
  | _ => none

/-- Fractional value of a digit list read after a decimal point. -/
def fracVal (ds : List Nat) : ℚ := (digitsToNat ds : ℚ) / (10 : ℚ) ^ ds.length

/-- Digit value with default zero (only applied to digit characters). -/
def digitValD (c : Char) : Nat := (digitVal c).getD 0

/-- Parse an unsigned decimal literal (`123`, `123.45`, `.5`, `7.`);
anything else fails. -/
def parseUnsigned (cs : List Char) : Option ℚ :=
  let ip := cs.takeWhile (fun c => (digitVal c).isSome)
  let rest := cs.dropWhile (fun c => (digitVal c).isSome)
  match rest with
  | [] => if ip.isEmpty then none else some (digitsToNat (ip.map digitValD) : ℚ)
  | '.' :: fr =>
    if fr.all (fun c => (digitVal c).isSome) && !(ip.isEmpty && fr.isEmpty) then
      some ((digitsToNat (ip.map digitValD) : ℚ) + fracVal (fr.map digitValD))
    else none
  | _ => none

/-- Model of float parsing by `pd.to_numeric` on a string: optional sign
followed by a plain decimal literal; `none` means the value fails to
parse (and `errors="coerce"` turns it into a missing value). -/
def parseRat (s : String) : Option ℚ :=
  match s.data with
  | '-' :: cs => (parseUnsigned cs).map (fun q => -q)
  | '+' :: cs => parseUnsigned cs
  | cs => parseUnsigned cs

/-- Model of `pd.to_numeric(cell, errors="coerce")`: numbers pass
through, strings are parsed, anything unparseable becomes missing; no
exception is ever raised. -/
def toNumericCell : Cell → Cell
  | Cell.na => Cell.na
  | Cell.num q => Cell.num q
  | Cell.inf b => Cell.inf b
  | Cell.str s =>
    match parseRat s with
    | some q => Cell.num q
    | none => Cell.na
  | Cell.date _ _ _ => Cell.na

/-- Source line 30: `replace(',', '', regex=True)` removes every comma
from string cells of the monetary columns and leaves other cells
untouched. -/
def stripCommas : Cell → Cell
  | Cell.str s => Cell.str (String.mk (s.data.filter (fun c => c != ',')))
  | c => c

/-- Monetary-column coercion (source lines 30–33): strip commas, then
`pd.to_numeric(errors="coerce")`. -/
def coerceMoney (c : Cell) : Cell := toNumericCell (stripCommas c)

/-- Source lines 44–45: `pd.to_datetime(format="%m/%d/%Y",
errors="coerce")` on the `DATE FUNDED` column; non-string cells and
unparseable strings become `NaT`. -/
def coerceDate : Cell → Cell
  | Cell.str s =>
    match parseMDY s with
    | some (y, m, d) => Cell.date y m d
    | none => Cell.na
  | _ => Cell.na

/-- Zero-padded two-digit rendering (month and day of a `Timestamp`). -/
def digits2 (n : Nat) : List Char := [dch (n / 10 % 10), dch (n % 10)]

/-- Zero-padded four-digit rendering (year of a `Timestamp`; pipeline
years lie between 1678 and 2261, hence below 10000). -/
def digits4 (n : Nat) : List Char :=
  [dch (n / 1000 % 10), dch (n / 100 % 10), dch (n / 10 % 10), dch (n % 10)]

/-- The `"YYYY-MM-DD"` character rendering of a day-granularity
`Timestamp`. -/
def fmtChars (y m d : Nat) : List Char :=
  digits4 y ++ '-' :: digits2 m ++ '-' :: digits2 d

/-- Source line 58: `astype(str)` on the datetime column, as characters.
A valid `Timestamp` renders as `"YYYY-MM-DD"`; a missing value renders
as the literal string `"NaT"` (which is NOT a missing value). -/
def dateChars : Cell → List Char
  | Cell.date y m d => fmtChars y m d
  | _ => ['N', 'a', 'T']

/-- Source lines 63–64: `pd.to_datetime(s, format="%Y",
errors="coerce")` on a string: one to four digits parsed as a year in
the `Timestamp` range, yielding January 1 of that year; anything else
(including the string `"NaT"`) becomes `NaT`. -/
def parseYearChars (cs : List Char) : Cell :=
  match cs.mapM digitVal with
  | some ds =>
    if 1 ≤ ds.length ∧ ds.length ≤ 4 ∧ yearInRange (digitsToNat ds) = true
    then Cell.date (digitsToNat ds) 1 1 else Cell.na
  | none => Cell.na

/-- Exact rational division, written with `Rat.divInt` on the
cross-multiplied numerators so that it evaluates by kernel reduction;
`ratDiv_eq_div` below proves it equal to ordinary division `a / b`
whenever the denominator is nonzero. -/
def ratDiv (a b : ℚ) : ℚ := Rat.divInt (a.num * b.den) (b.num * a.den)

/-- IEEE division as performed by `tdc / ptu` on source line 67: a
nonzero value divided by zero is a signed infinity (pandas raises no
error and `dropna` does not remove infinities), zero divided by zero is
`NaN`, and any missing operand gives `NaN`.  Both operands are numeric
or missing after coercion, so the catch-all only ever sees missing
operands. -/
def floatDiv : Cell → Cell → Cell
  | Cell.num a, Cell.num b =>
    if b = 0 then (if a = 0 then Cell.na else Cell.inf (decide (0 < a)))
    else Cell.num (ratDiv a b)
  | _, _ => Cell.na

/-- One raw site-level row of the published dataset, restricted to the
columns the claims mention.  `projectNumber` is the identifier column.
The monetary columns, `JOBS`, `PROJECT TOTAL UNITS` and `DATE FUNDED`
hold their as-loaded cells (strings, numbers or missing, as `read_csv`
delivered them); columns pruned unread by the source are omitted. -/
structure RawRow where
  projectNumber : String
  constructionType : Cell
  housingType : Cell
  developmentStage : Cell
  supportiveHousing : Cell
  lahdFunded : Cell
  leverage : Cell
  taxExemptConduitBond : Cell
  totalDevelopmentCost : Cell
  jobs : Cell
  projectTotalUnits : Cell
  dateFunded : Cell
deriving DecidableEq, Repr

/-- The row filter of source lines 17–18: keep a row unless its
construction type is the literal `"ACQUISITION ONLY"` or its housing
type is the literal `"AT-RISK"` (a missing value is not equal to either
literal, so rows with missing category cells are kept). -/
def keepRow (r : RawRow) : Bool :=
  !(r.constructionType == Cell.str "ACQUISITION ONLY") &&
    !(r.housingType == Cell.str "AT-RISK")

/-- Source lines 17–18: the raw table after the two row filters. -/
def filteredRaw (rows : List RawRow) : List RawRow := rows.filter keepRow

/-- Per-row effect of source lines 28–45: monetary columns get the
comma-strip + `to_numeric` coercion, `JOBS` gets `to_numeric` without
comma stripping, `DATE FUNDED` gets the `"%m/%d/%Y"` datetime parse.
The categorical `astype("category")` of line 41 does not change cell
values and the rename of lines 21–23 is a schema-level operation (the
`totalDevelopmentCost` field already is the renamed `TDC` column). -/
def coerceRow (r : RawRow) : RawRow :=
  { r with
    lahdFunded := coerceMoney r.lahdFunded
    leverage := coerceMoney r.leverage
    taxExemptConduitBond := coerceMoney r.taxExemptConduitBond
    totalDevelopmentCost := coerceMoney r.totalDevelopmentCost
    jobs := toNumericCell r.jobs
    dateFunded := coerceDate r.dateFunded }

/-- The state of the `lahd` frame after source line 45: filtered rows
with coerced cells.  This is also the "filtered raw table" the serving
layer keeps for site-level map rendering. -/
def prepared (rows : List RawRow) : List RawRow :=
  (filteredRaw rows).map coerceRow

/-- Number of filtered rows carrying a given project number (the group
size that `groupby("PROJECT NUMBER")["PROJECT NUMBER"].count()` reports
for that key). -/
def siteCount (rows : List RawRow) (k : String) : Nat :=
  (prepared rows).countP (fun r => r.projectNumber == k)

/-- Ascending lexicographic order on key strings (definitionally the
standard `String` order; spelled as its own relation so that the
kernel-reducible core decidability instance is used for sorting). -/
def strLe (a b : String) : Prop := a ≤ b

instance : DecidableRel strLe := fun a b =>
  show Decidable (a ≤ b) from
    decidable_of_iff (¬ b.data < a.data) (not_congr String.lt_iff_toList_lt).symm

instance : IsTotal String strLe := ⟨fun a b => le_total a b⟩

instance : IsTrans String strLe := ⟨fun _ _ _ hab hbc => le_trans hab hbc⟩

instance : IsAntisymm String strLe := ⟨fun _ _ hab hba => le_antisymm hab hba⟩

/-- Source line 49: the groupby count series, one `(key, count)` pair
per distinct project number, with keys in ascending order (pandas
`groupby` sorts group keys). -/
def projectCount (rows : List RawRow) : List (String × Nat) :=
  (List.insertionSort strLe ((prepared rows).map RawRow.projectNumber).dedup).map
    (fun k => (k, siteCount rows k))

/-- Source line 53 `drop_duplicates(["PROJECT NUMBER"])`: keep the first
row of each project number, scanning left to right; `seen` accumulates
the keys already kept. -/
def dropDupFirst : List RawRow → List String → List RawRow
  | [], _ => []
  | r :: rs, seen =>
    if r.projectNumber ∈ seen then dropDupFirst rs seen
    else r :: dropDupFirst rs (r.projectNumber :: seen)

/-- Row comparison used by `sort_values("PROJECT NUMBER")` on source
line 54: ascending lexicographic order of the key strings. -/
def rowLe (a b : RawRow) : Prop := a.projectNumber ≤ b.projectNumber

instance : DecidableRel rowLe :=
  fun a b => show Decidable (a.projectNumber ≤ b.projectNumber) from
    decidable_of_iff (¬ b.projectNumber.data < a.projectNumber.data)
      (not_congr String.lt_iff_toList_lt).symm

instance : IsTotal RawRow rowLe :=
  ⟨fun a b => le_total a.projectNumber b.projectNumber⟩

instance : IsTrans RawRow rowLe :=
  ⟨fun _ _ _ hab hbc => le_trans hab hbc⟩

/-- The deduplicated table sorted ascending by project number (source
lines 53–54). -/
def dedupSorted (rows : List RawRow) : List RawRow :=
  List.insertionSort rowLe (dropDupFirst (prepared rows) [])

/-- One row of the project-level table, restricted to the columns
retained after the pruning of source lines 70–80 (which also removes
`SITE COUNCIL DISTRICT` by positional index).  `dateFunded` is a plain
string after `astype(str)` and the `[:10]` truncation; `yearFunded` is a
datetime (or missing); `numberOfSites` is the attached count. -/
structure ProjRow where
  projectNumber : String
  developmentStage : Cell
  constructionType : Cell
  housingType : Cell
  supportiveHousing : Cell
  dateFunded : String
  lahdFunded : Cell
  leverage : Cell
  taxExemptConduitBond : Cell
  totalDevelopmentCost : Cell
  projectTotalUnits : Cell
  jobs : Cell
  numberOfSites : Nat
  yearFunded : Cell
  costPerHousingUnit : Cell
deriving DecidableEq, Repr

/-- Source lines 56–67 applied to one representative row `r` with
attached site count `n`: `DATE FUNDED` is stringified (line 58), `YEAR
FUNDED` is the `[:4]` slice re-parsed with `format="%Y"` (lines 59–60
and 63–64), `DATE FUNDED` is then truncated to `[:10]` (lines 61–62),
and `COST PER HOUSING UNIT` is the float division of line 67. -/
def mkProj (r : RawRow) (n : Nat) : ProjRow :=
  { projectNumber := r.projectNumber
    developmentStage := r.developmentStage
    constructionType := r.constructionType
    housingType := r.housingType
    supportiveHousing := r.supportiveHousing
    dateFunded := String.mk ((dateChars r.dateFunded).take 10)
    lahdFunded := r.lahdFunded
    leverage := r.leverage
    taxExemptConduitBond := r.taxExemptConduitBond
    totalDevelopmentCost := r.totalDevelopmentCost
    projectTotalUnits := r.projectTotalUnits
    jobs := r.jobs
    numberOfSites := n
    yearFunded := parseYearChars ((dateChars r.dateFunded).take 4)
    costPerHousingUnit := floatDiv r.totalDevelopmentCost r.projectTotalUnits }

/-- The `lahd_projects` table as of source line 80: deduplicated sorted
rows with the groupby counts attached BY ARRAY POSITION
(`np.array(project_count)` on line 57 discards the keys), plus the
derived columns. -/
def lahdProjects (rows : List RawRow) : List ProjRow :=
  List.zipWith mkProj (dedupSorted rows) ((projectCount rows).map Prod.snd)

/-- Whether a project row has a missing value in any retained column
(`projectNumber`, `dateFunded` and `numberOfSites` are a string, a
string and an integer, never missing). -/
def ProjRow.hasNA (p : ProjRow) : Bool :=
  p.developmentStage.isNA || p.constructionType.isNA || p.housingType.isNA ||
    p.supportiveHousing.isNA || p.lahdFunded.isNA || p.leverage.isNA ||
    p.taxExemptConduitBond.isNA || p.totalDevelopmentCost.isNA ||
    p.projectTotalUnits.isNA || p.jobs.isNA || p.yearFunded.isNA ||
    p.costPerHousingUnit.isNA

/-- The terminal `lahd_projects` table (after the `dropna` of source
line 88). -/
def lahdProjectsFinal (rows : List RawRow) : List ProjRow :=
  (lahdProjects rows).filter (fun p => !p.hasNA)

/-- One row of the jobs-excluded variant table (`JOBS` column dropped on
source lines 83–84). -/
structure ProjRowNJ where
  projectNumber : String
  developmentStage : Cell
  constructionType : Cell
  housingType : Cell
  supportiveHousing : Cell
  dateFunded : String
  lahdFunded : Cell
  leverage : Cell
  taxExemptConduitBond : Cell
  totalDevelopmentCost : Cell
  projectTotalUnits : Cell
  numberOfSites : Nat
  yearFunded : Cell
  costPerHousingUnit : Cell
deriving DecidableEq, Repr

/-- Source lines 83–84: drop the `JOBS` column from a project row. -/
def dropJobsCol (p : ProjRow) : ProjRowNJ :=
  { projectNumber := p.projectNumber
    developmentStage := p.developmentStage
    constructionType := p.constructionType
    housingType := p.housingType
    supportiveHousing := p.supportiveHousing
    dateFunded := p.dateFunded
    lahdFunded := p.lahdFunded
    leverage := p.leverage
    taxExemptConduitBond := p.taxExemptConduitBond
    totalDevelopmentCost := p.totalDevelopmentCost
    projectTotalUnits := p.projectTotalUnits
    numberOfSites := p.numberOfSites
    yearFunded := p.yearFunded
    costPerHousingUnit := p.costPerHousingUnit }

/-- Missing-value check of the jobs-excluded variant: the same retained
columns minus `JOBS`. -/
def ProjRowNJ.hasNA (q : ProjRowNJ) : Bool :=
  q.developmentStage.isNA || q.constructionType.isNA || q.housingType.isNA ||
    q.supportiveHousing.isNA || q.lahdFunded.isNA || q.leverage.isNA ||
    q.taxExemptConduitBond.isNA || q.totalDevelopmentCost.isNA ||
    q.projectTotalUnits.isNA || q.yearFunded.isNA || q.costPerHousingUnit.isNA

/-- The terminal `lahd_projects_no_jobs_column` table (column dropped on
lines 83–84, `dropna` on line 89). -/
def lahdProjectsNoJobs (rows : List RawRow) : List ProjRowNJ :=
  ((lahdProjects rows).map dropJobsCol).filter (fun q => !q.hasNA)

/-- Source lines 21–23: the rename dictionary.  `DataFrame.rename`
renames by exact match and SILENTLY IGNORES dictionary keys that do not
occur among the columns (pandas default `errors="ignore"`). -/
def renameMap (c : String) : String :=
  if c = "TDC" then "TOTAL DEVELOPMENT COST"
  else if c = "SITE #" then "SITE NUMBER"
  else c

/-- The column list after the rename of source lines 21–23. -/
def renameColumns (cols : List String) : List String := cols.map renameMap

/-- The monetary columns of source lines 28–29. -/
def numericColumns : List String :=
  ["LAHD FUNDED", "LEVERAGE", "TAX EXEMPT CONDUIT BOND",
   "TOTAL DEVELOPMENT COST"]

/-- The categorical columns of source lines 38–40. -/
def categoricalColumns : List String :=
  ["APN", "PROJECT NUMBER", "DEVELOPMENT STAGE", "CONSTRUCTION TYPE",
   "SITE NUMBER", "HOUSING TYPE", "SUPPORTIVE HOUSING", "IN-SERVICE DATE"]

/-- The columns dropped by name on source lines 70–76 (`DataFrame.drop`
raises a `KeyError` when any listed label is absent). -/
def dropListColumns : List String :=
  ["APN", "NAME", "SITE ADDRESS", "SITE NUMBER", "SITE COMMUNITY",
   "SITE UNITS", "SH UNITS PER SITE", "IN-SERVICE DATE", "PHOTO",
   "PROJECT SUMMARY URL", "CONTRACT NUMBERS", "DATE STAMP",
   "SITE LONGITUDE", "SITE LATITUDE", "GPS_COORDS ON MAP", "DEVELOPER",
   "MANAGEMENT COMPANY", "CONTACT PHONE"]

/-- Whether every selected column occurs in the schema (`df[sel]` and
`df.drop(sel)` raise a `KeyError` otherwise). -/
def hasAllCols (cols sel : List String) : Bool := sel.all (cols.contains ·)

/-- Every schema condition the pipeline's startup code requires, in
source order; a `false` conjunct means the corresponding line raises
(`KeyError`, or `IndexError` for the positional drop of line 79) and the
module-level pipeline halts at startup.  The conditions: `DATE STAMP`
read on line 13, the two filter columns of lines 17–18, then after the
rename the numeric selection (line 30), `JOBS` (line 34), the
categorical selection (line 41), `DATE FUNDED` (line 44), `PROJECT
NUMBER` (lines 49/53/54), `PROJECT TOTAL UNITS` (line 66), the named
drop list (lines 70–76), and at least four remaining columns for
`columns[3]` (line 79). -/
def schemaChecks (cols0 : List String) : Bool :=
  hasAllCols cols0 ["DATE STAMP", "CONSTRUCTION TYPE", "HOUSING TYPE"] &&
  hasAllCols (renameColumns cols0) numericColumns &&
  hasAllCols (renameColumns cols0) ["JOBS"] &&
  hasAllCols (renameColumns cols0) categoricalColumns &&
  hasAllCols (renameColumns cols0)
    ["DATE FUNDED", "PROJECT NUMBER", "PROJECT TOTAL UNITS"] &&
  hasAllCols (renameColumns cols0) dropListColumns &&
  decide (4 ≤ ((renameColumns cols0).filter
    (fun c => !(dropListColumns.contains c))).length)

/-- Schema-level model of the pipeline's startup: the configuration
succeeds with the pruned column list exactly when every schema condition
holds; otherwise the startup raises and the pipeline halts. -/
def schemaPipeline (cols0 : List String) : Except String (List String) :=
  if schemaChecks cols0 then
    Except.ok ((((renameColumns cols0).filter
      (fun c => !(dropListColumns.contains c)))).eraseIdx 3)
  else Except.error "KeyError"

/-- Concrete raw row: first site of project `"P1"`, fully populated with
parseable values. -/
def wRowA : RawRow :=
  { projectNumber := "P1"
    constructionType := Cell.str "NEW CONSTRUCTION"
    housingType := Cell.str "FAMILY"
    developmentStage := Cell.str "COMPLETED"
    supportiveHousing := Cell.str "NO"
    lahdFunded := Cell.str "1,234,500"
    leverage := Cell.str "2,000"
    taxExemptConduitBond := Cell.str "0"
    totalDevelopmentCost := Cell.str "3,000,000"
    jobs := Cell.num 12
    projectTotalUnits := Cell.num 50
    dateFunded := Cell.str "03/15/2010" }

/-- Second site row of project `"P1"`. -/
def wRowB : RawRow := { wRowA with leverage := Cell.str "500" }

/-- Single site of project `"P2"`, complete except for a missing `JOBS`
value. -/
def wRowC : RawRow := { wRowA with projectNumber := "P2", jobs := Cell.na }

/-- A row excluded by the housing-type filter. -/
def wRowD : RawRow :=
  { wRowA with projectNumber := "P0", housingType := Cell.str "AT-RISK" }

/-- Concrete input table: two sites of `"P1"`, one site of `"P2"`, one
at-risk row that the filter removes. -/
def wRows : List RawRow := [wRowA, wRowB, wRowC, wRowD]

/-- The project row for `"P1"` produced from `wRows` (two sites). -/
def wP1 : ProjRow := mkProj (coerceRow wRowA) 2

/-- The project row for `"P2"` produced from `wRows` (one site; missing
`JOBS`). -/
def wP2 : ProjRow := mkProj (coerceRow wRowC) 1

/-- Row with a present, zero `PROJECT TOTAL UNITS` and a nonzero total
development cost. -/
def rowC2 : RawRow :=
  { wRowA with projectNumber := "Q1",
               totalDevelopmentCost := Cell.str "100",
               projectTotalUnits := Cell.num 0 }

/-- Row whose monetary cells exercise the thousands-separator stripping
and the parse-failure path. -/
def row7 : RawRow :=
  { wRowA with projectNumber := "P7",
               totalDevelopmentCost := Cell.str "N/A" }

/-- Row with a well-formed `"%m/%d/%Y"` funding date. -/
def row8 : RawRow := { wRowA with projectNumber := "D1" }

/-- Row whose funding date does not parse as `"%m/%d/%Y"` (month 15). -/
def row8bad : RawRow :=
  { wRowA with projectNumber := "D2", dateFunded := Cell.str "15/03/2010" }

/-- The full input schema as the upstream source would publish it after
itself renaming `TDC` and `SITE #`: every column the pipeline needs is
present under its post-rename name, and the two abbreviation columns are
absent. -/
def fullSchemaRenamed : List String :=
  ["DATE STAMP", "APN", "PROJECT NUMBER", "NAME", "DEVELOPMENT STAGE",
   "CONSTRUCTION TYPE", "SITE COUNCIL DISTRICT", "HOUSING TYPE",
   "SUPPORTIVE HOUSING", "SITE ADDRESS", "SITE NUMBER", "SITE COMMUNITY",
   "SITE UNITS", "SH UNITS PER SITE", "IN-SERVICE DATE", "PHOTO",
   "PROJECT SUMMARY URL", "CONTRACT NUMBERS", "SITE LONGITUDE",
   "SITE LATITUDE", "GPS_COORDS ON MAP", "DEVELOPER",
   "MANAGEMENT COMPANY", "CONTACT PHONE", "LAHD FUNDED", "LEVERAGE",
   "TAX EXEMPT CONDUIT BOND", "TOTAL DEVELOPMENT COST", "JOBS",
   "PROJECT TOTAL UNITS", "DATE FUNDED"]

/-- A schema in which both the `TDC` abbreviation and its renamed form
are absent. -/
def colsMissingTdc : List String :=
  fullSchemaRenamed.filter (fun c => c != "TOTAL DEVELOPMENT COST")

/-- A key occurs among the keys kept by `dropDupFirst` exactly when it
occurs in the input and is not already in the seen accumulator. -/
theorem mem_dropDupFirst_key (S : List RawRow) (seen : List String) (k : String) :
    k ∈ (dropDupFirst S seen).map RawRow.projectNumber ↔
      k ∈ S.map RawRow.projectNumber ∧ k ∉ seen := by
  induction S generalizing seen with
  | nil => simp [dropDupFirst]
  | cons r rs ih =>
    simp only [dropDupFirst]
    by_cases h : r.projectNumber ∈ seen
    · rw [if_pos h, ih]
      simp only [List.map_cons, List.mem_cons]
      constructor
      · rintro ⟨hk, hns⟩
        exact ⟨Or.inr hk, hns⟩
      · rintro ⟨hk | hk, hns⟩
        · exact absurd (hk ▸ h) hns
        · exact ⟨hk, hns⟩
    · rw [if_neg h]
      simp only [List.map_cons, List.mem_cons, ih]
      constructor
      · rintro (hk | ⟨hk, hns⟩)
        · exact ⟨Or.inl hk, hk ▸ h⟩
        · exact ⟨Or.inr hk, fun hs => hns (Or.inr hs)⟩
      · rintro ⟨hk | hk, hns⟩
        · exact Or.inl hk
        · by_cases hkr : k = r.projectNumber
          · exact Or.inl hkr
          · exact Or.inr ⟨hk, fun hs => hs.elim hkr hns⟩

/-- The keys kept by `drop_duplicates(["PROJECT NUMBER"])` are pairwise
distinct. -/
theorem nodup_dropDupFirst_key (S : List RawRow) (seen : List String) :
    ((dropDupFirst S seen).map RawRow.projectNumber).Nodup := by
  induction S generalizing seen with
  | nil => simp [dropDupFirst]
  | cons r rs ih =>
    simp only [dropDupFirst]
    by_cases h : r.projectNumber ∈ seen
    · rw [if_pos h]
      exact ih seen
    · rw [if_neg h]
      simp only [List.map_cons, List.nodup_cons]
      refine ⟨fun hmem => ?_, ih _⟩
      exact ((mem_dropDupFirst_key rs _ _).1 hmem).2 (List.mem_cons_self _ _)

/-- Rows kept by deduplication come from the input table. -/
theorem dropDupFirst_subset (S : List RawRow) (seen : List String) :
    ∀ r ∈ dropDupFirst S seen, r ∈ S := by
  induction S generalizing seen with
  | nil => simp [dropDupFirst]
  | cons x xs ih =>
    intro r hr
    simp only [dropDupFirst] at hr
    by_cases h : x.projectNumber ∈ seen
    · rw [if_pos h] at hr
      exact List.mem_cons_of_mem _ (ih seen r hr)
    · rw [if_neg h] at hr
      rcases List.mem_cons.1 hr with h1 | h2
      · exact h1 ▸ List.mem_cons_self _ _
      · exact List.mem_cons_of_mem _ (ih _ r h2)

/-- A kept row's key is never in the seen accumulator. -/
theorem dropDupFirst_key_not_seen (S : List RawRow) (seen : List String) :
    ∀ r ∈ dropDupFirst S seen, r.projectNumber ∉ seen := by
  intro r hr
  exact ((mem_dropDupFirst_key S seen r.projectNumber).1
    (List.mem_map_of_mem _ hr)).2

/-- `drop_duplicates` keeps exactly the FIRST row bearing each key: any
kept row is what a left-to-right search for its key finds. -/
theorem dropDupFirst_find (S : List RawRow) (seen : List String) :
    ∀ r ∈ dropDupFirst S seen,
      S.find? (fun x => x.projectNumber == r.projectNumber) = some r := by
  induction S generalizing seen with
  | nil => simp [dropDupFirst]
  | cons x xs ih =>
    intro r hr
    simp only [dropDupFirst] at hr
    by_cases h : x.projectNumber ∈ seen
    · rw [if_pos h] at hr
      have hne : ¬ x.projectNumber = r.projectNumber := by
        intro he
        exact (dropDupFirst_key_not_seen xs seen r hr) (he ▸ h)
      rw [List.find?_cons_of_neg _ (by simpa using hne)]
      exact ih seen r hr
    · rw [if_neg h] at hr
      rcases List.mem_cons.1 hr with h1 | h2
      · subst h1
        rw [List.find?_cons_of_pos _ (by simp)]
      · have hnotin := dropDupFirst_key_not_seen xs _ r h2
        have hne : ¬ x.projectNumber = r.projectNumber := by
          intro he
          exact hnotin (he ▸ List.mem_cons_self _ _)
        rw [List.find?_cons_of_neg _ (by simpa using hne)]
        exact ih _ r h2

/-- The key column of the deduplicated sorted table coincides with the
sorted distinct keys that the groupby count series is indexed by: both
are duplicate-free, contain the same keys, and are sorted by the same
ascending string order. -/
theorem dedupSorted_keys (rows : List RawRow) :
    (dedupSorted rows).map RawRow.projectNumber =
      List.insertionSort strLe ((prepared rows).map RawRow.projectNumber).dedup := by
  have hsorted1 : List.Sorted strLe
      ((dedupSorted rows).map RawRow.projectNumber) :=
    List.Pairwise.map _ (fun a b hab => hab)
      (List.sorted_insertionSort rowLe (dropDupFirst (prepared rows) []))
  have h2 := (List.perm_insertionSort rowLe
    (dropDupFirst (prepared rows) [])).map RawRow.projectNumber
  have h3 : List.Perm
      ((dropDupFirst (prepared rows) []).map RawRow.projectNumber)
      (((prepared rows).map RawRow.projectNumber).dedup) := by
    apply (List.perm_ext_iff_of_nodup (nodup_dropDupFirst_key _ _)
      (List.nodup_dedup _)).2
    intro k
    rw [List.mem_dedup, mem_dropDupFirst_key]
    simp
  exact List.eq_of_perm_of_sorted
    ((h2.trans h3).trans (List.perm_insertionSort _ _).symm)
    hsorted1 (List.sorted_insertionSort _ _)

/-- Zipping a list with its own image under a function is a map. -/
theorem zipWith_self_map {α β γ : Type} (f : α → β → γ) (g : α → β) :
    ∀ l : List α, List.zipWith f l (l.map g) = l.map (fun r => f r (g r)) := by
  intro l
  induction l with
  | nil => rfl
  | cons x xs ih => simp [ih]

/-- The positional attachment of the groupby counts (source line 57)
coincides with attaching to every deduplicated row the count of ITS OWN
project number: both the count series index and the deduplicated table
are sorted by the same ascending key order with pairwise distinct keys,
so position `i` of both carries the same key. -/
theorem lahdProjects_eq_map (rows : List RawRow) :
    lahdProjects rows =
      (dedupSorted rows).map (fun r => mkProj r (siteCount rows r.projectNumber)) := by
  unfold lahdProjects projectCount
  rw [← dedupSorted_keys rows, List.map_map, List.map_map]
  exact zipWith_self_map _ _ _

/-- Every row of `lahd_projects` is built by `mkProj` from a
deduplicated representative row, carrying the count of its own key. -/
theorem mem_lahdProjects (rows : List RawRow) (p : ProjRow)
    (hp : p ∈ lahdProjects rows) :
    ∃ r, r ∈ dropDupFirst (prepared rows) [] ∧
      p = mkProj r (siteCount rows r.projectNumber) := by
  rw [lahdProjects_eq_map] at hp
  rcases List.mem_map.1 hp with ⟨r, hr, he⟩
  exact ⟨r, (List.perm_insertionSort rowLe _).mem_iff.1 hr, he.symm⟩

/-- C1: for every project number present in the final ProjectRecord
table, the `NUMBER OF SITES` value equals the number of rows of the
filtered raw table whose `PROJECT NUMBER` equals that project number:
the positional attachment of the groupby count series is correct
because the count series index and the deduplicated table are sorted by
the same ascending key order with pairwise-distinct keys. -/
theorem numberOfSites_matches_filtered_count (rows : List RawRow) (p : ProjRow)
    (hp : p ∈ lahdProjectsFinal rows) :
    p.numberOfSites =
      ((prepared rows).filter
        (fun r => r.projectNumber == p.projectNumber)).length := by
  have hp2 : p ∈ lahdProjects rows := (List.mem_filter.1 hp).1
  rcases mem_lahdProjects rows p hp2 with ⟨r, _, he⟩
  subst he
  simp only [mkProj, siteCount, List.countP_eq_length_filter]

/-- Witness for C1 at the concrete table `wRows`: project `"P1"` has two
filtered sites and its final row records `NUMBER OF SITES = 2`. -/
theorem numberOfSites_matches_filtered_count_witness :
    wP1.numberOfSites =
      ((prepared wRows).filter
        (fun r => r.projectNumber == wP1.projectNumber)).length :=
  numberOfSites_matches_filtered_count wRows wP1 (by decide)

/-- C7: monetary coercion strips comma thousands-separators and parses
the remainder as a float, and an unparseable value becomes missing (the
coercion is a total function, so no exception can propagate): the cell
`"1,234,500"` coerces to the number `1234500` and the cell `"N/A"`
coerces to a missing value, both as isolated cell coercions and through
the prepared table. -/
theorem monetary_coercion_examples :
    (prepared [row7]).map (fun r => (r.lahdFunded, r.totalDevelopmentCost)) =
      [(Cell.num 1234500, Cell.na)] ∧
    coerceMoney (Cell.str "1,234,500") = Cell.num 1234500 ∧
    coerceMoney (Cell.str "N/A") = Cell.na := by
  exact ⟨by decide, by decide, by decide⟩

/-- C8: the funding date `"03/15/2010"` yields `YEAR FUNDED` 2010 (the
Timestamp 2010-01-01) and a displayed `DATE FUNDED` equal to the
10-character string `"2010-03-15"`, while a date that does not parse as
`"%m/%d/%Y"` becomes a missing value at the parse step (the parse is a
total function, so it never raises). -/
theorem date_parse_examples :
    (lahdProjects [row8, row8bad]).map (fun p => (p.dateFunded, p.yearFunded)) =
      [("2010-03-15", Cell.date 2010 1 1), ("NaT", Cell.na)] ∧
    ("2010-03-15" : String).length = 10 ∧
    (prepared [row8bad]).map RawRow.dateFunded = [Cell.na] := by
  exact ⟨by decide, by decide, by decide⟩

/-- Cross-multiplied division agrees with ordinary rational division
whenever the denominator is nonzero. -/
theorem ratDiv_eq_div (a b : ℚ) (hb : b ≠ 0) : ratDiv a b = a / b := by
  have had : (a.den : ℚ) ≠ 0 := Nat.cast_ne_zero.2 a.den_nz
  have hbn : (b.num : ℚ) ≠ 0 := Int.cast_ne_zero.2 (Rat.num_ne_zero.2 hb)
  have ha : (a.num : ℚ) = a * a.den := (div_eq_iff had).1 (Rat.num_div_den a)
  have hb2 : (b.num : ℚ) = b * b.den :=
    (div_eq_iff (Nat.cast_ne_zero.2 b.den_nz)).1 (Rat.num_div_den b)
  unfold ratDiv
  rw [Rat.divInt_eq_div]
  push_cast
  rw [div_eq_div_iff (mul_ne_zero hbn had) hb, ha, hb2]
  ring

/-- A cell is not flagged missing exactly when it is not the missing
cell. -/
theorem Cell.isNA_eq_false (c : Cell) : c.isNA = false ↔ c ≠ Cell.na := by
  cases c <;> simp [Cell.isNA]

/-- Unfolding of the full-table missing-value check into per-column
conditions. -/
theorem projRow_hasNA_eq_false_iff (p : ProjRow) :
    p.hasNA = false ↔
      (p.developmentStage ≠ Cell.na ∧ p.constructionType ≠ Cell.na ∧
       p.housingType ≠ Cell.na ∧ p.supportiveHousing ≠ Cell.na ∧
       p.lahdFunded ≠ Cell.na ∧ p.leverage ≠ Cell.na ∧
       p.taxExemptConduitBond ≠ Cell.na ∧ p.totalDevelopmentCost ≠ Cell.na ∧
       p.projectTotalUnits ≠ Cell.na ∧ p.jobs ≠ Cell.na ∧
       p.yearFunded ≠ Cell.na ∧ p.costPerHousingUnit ≠ Cell.na) := by
  simp only [ProjRow.hasNA, Bool.or_eq_false_iff, Cell.isNA_eq_false]
  tauto

/-- Unfolding of the jobs-excluded missing-value check into per-column
conditions. -/
theorem projRowNJ_hasNA_eq_false_iff (q : ProjRowNJ) :
    q.hasNA = false ↔
      (q.developmentStage ≠ Cell.na ∧ q.constructionType ≠ Cell.na ∧
       q.housingType ≠ Cell.na ∧ q.supportiveHousing ≠ Cell.na ∧
       q.lahdFunded ≠ Cell.na ∧ q.leverage ≠ Cell.na ∧
       q.taxExemptConduitBond ≠ Cell.na ∧ q.totalDevelopmentCost ≠ Cell.na ∧
       q.projectTotalUnits ≠ Cell.na ∧
       q.yearFunded ≠ Cell.na ∧ q.costPerHousingUnit ≠ Cell.na) := by
  simp only [ProjRowNJ.hasNA, Bool.or_eq_false_iff, Cell.isNA_eq_false]
  tauto

/-- Dropping the `JOBS` column can only remove missing-value reasons:
a complete project row stays complete. -/
theorem dropJobsCol_hasNA_le (p : ProjRow) (h : p.hasNA = false) :
    (dropJobsCol p).hasNA = false := by
  simp only [ProjRow.hasNA, Bool.or_eq_false_iff] at h
  simp only [ProjRowNJ.hasNA, dropJobsCol, Bool.or_eq_false_iff]
  tauto

/-- Rows of the prepared table never carry the excluded construction or
housing type (the filter ran before coercion, and coercion does not
touch the two category columns). -/
theorem prepared_not_excluded (rows : List RawRow) :
    ∀ r ∈ prepared rows,
      r.constructionType ≠ Cell.str "ACQUISITION ONLY" ∧
      r.housingType ≠ Cell.str "AT-RISK" := by
  intro r hr
  rcases List.mem_map.1 hr with ⟨r0, hr0, he⟩
  have hk := (List.mem_filter.1 hr0).2
  simp only [keepRow, Bool.and_eq_true, Bool.not_eq_true',
    beq_eq_false_iff_ne] at hk
  subst he
  exact ⟨hk.1, hk.2⟩

/-- Every project row is built from some prepared row. -/
theorem lahdProjects_from_prepared (rows : List RawRow) (p : ProjRow)
    (hp : p ∈ lahdProjects rows) :
    ∃ r ∈ prepared rows, p = mkProj r (siteCount rows r.projectNumber) := by
  rcases mem_lahdProjects rows p hp with ⟨r, hr, he⟩
  exact ⟨r, dropDupFirst_subset _ _ r hr, he⟩

/-- The key column of `lahd_projects` is the key column of the
deduplicated sorted table. -/
theorem lahdProjects_keys (rows : List RawRow) :
    (lahdProjects rows).map ProjRow.projectNumber =
      (dedupSorted rows).map RawRow.projectNumber := by
  rw [lahdProjects_eq_map, List.map_map]
  rfl

/-- C4: no row with construction type `"ACQUISITION ONLY"` and no row
with housing type `"AT-RISK"` appears in the filtered raw table, the
final ProjectRecord table, or the jobs-excluded variant; and every input
row matching neither exclusion is retained by the filter. -/
theorem excluded_rows_never_in_outputs (rows : List RawRow) :
    (∀ r ∈ prepared rows,
        r.constructionType ≠ Cell.str "ACQUISITION ONLY" ∧
        r.housingType ≠ Cell.str "AT-RISK") ∧
    (∀ p ∈ lahdProjectsFinal rows,
        p.constructionType ≠ Cell.str "ACQUISITION ONLY" ∧
        p.housingType ≠ Cell.str "AT-RISK") ∧
    (∀ q ∈ lahdProjectsNoJobs rows,
        q.constructionType ≠ Cell.str "ACQUISITION ONLY" ∧
        q.housingType ≠ Cell.str "AT-RISK") ∧
    (∀ r ∈ rows, r.constructionType ≠ Cell.str "ACQUISITION ONLY" →
        r.housingType ≠ Cell.str "AT-RISK" → r ∈ filteredRaw rows) := by
  refine ⟨prepared_not_excluded rows, ?_, ?_, ?_⟩
  · intro p hp
    rcases lahdProjects_from_prepared rows p (List.mem_filter.1 hp).1 with
      ⟨r, hr, he⟩
    have h := prepared_not_excluded rows r hr
    subst he
    exact ⟨h.1, h.2⟩
  · intro q hq
    rcases List.mem_filter.1 hq with ⟨hq1, _⟩
    rcases List.mem_map.1 hq1 with ⟨p, hp, he⟩
    rcases lahdProjects_from_prepared rows p hp with ⟨r, hr, he2⟩
    have h := prepared_not_excluded rows r hr
    subst he2
    subst he
    exact ⟨h.1, h.2⟩
  · intro r hr h1 h2
    refine List.mem_filter.2 ⟨hr, ?_⟩
    simp [keepRow, h1, h2]

/-- Witness for C4: the final row of project `"P1"` in the concrete
table indeed carries neither excluded category value. -/
theorem excluded_rows_never_in_outputs_witness :
    wP1.constructionType ≠ Cell.str "ACQUISITION ONLY" ∧
    wP1.housingType ≠ Cell.str "AT-RISK" :=
  (excluded_rows_never_in_outputs wRows).2.1 wP1 (by decide)

/-- C5: in the final ProjectRecord table every project number occurs in
exactly one row, the kept row is the first occurrence of its project
number in the filtered table, and the rows are sorted ascending by
project number. -/
theorem final_table_unique_sorted_first_occurrence (rows : List RawRow) :
    ((lahdProjectsFinal rows).map ProjRow.projectNumber).Nodup ∧
    List.Sorted strLe ((lahdProjectsFinal rows).map ProjRow.projectNumber) ∧
    ∀ p ∈ lahdProjectsFinal rows, ∃ r,
      (prepared rows).find? (fun x => x.projectNumber == p.projectNumber) =
        some r ∧
      p = mkProj r (siteCount rows r.projectNumber) := by
  have hnodup_all : ((lahdProjects rows).map ProjRow.projectNumber).Nodup := by
    rw [lahdProjects_keys, dedupSorted_keys]
    exact ((List.perm_insertionSort strLe _).nodup_iff).2 (List.nodup_dedup _)
  have hsorted_all :
      List.Sorted strLe ((lahdProjects rows).map ProjRow.projectNumber) := by
    rw [lahdProjects_keys, dedupSorted_keys]
    exact List.sorted_insertionSort strLe _
  have hsub : List.Sublist
      ((lahdProjectsFinal rows).map ProjRow.projectNumber)
      ((lahdProjects rows).map ProjRow.projectNumber) :=
    (List.filter_sublist _).map _
  refine ⟨hnodup_all.sublist hsub, hsorted_all.sublist hsub, ?_⟩
  intro p hp
  rcases mem_lahdProjects rows p (List.mem_filter.1 hp).1 with ⟨r, hr, he⟩
  refine ⟨r, ?_, he⟩
  have hfind := dropDupFirst_find (prepared rows) [] r hr
  rw [he]
  exact hfind

/-- Witness for C5: the kept `"P1"` row of the concrete table is the
first filtered row bearing that project number. -/
theorem final_table_unique_sorted_first_occurrence_witness :
    ∃ r, (prepared wRows).find?
        (fun x => x.projectNumber == wP1.projectNumber) = some r ∧
      wP1 = mkProj r (siteCount wRows r.projectNumber) :=
  (final_table_unique_sorted_first_occurrence wRows).2.2 wP1 (by decide)

/-- C6: after null-row removal neither terminal table contains a missing
value in any retained column, and any project row with a missing
retained field is dropped from the corresponding output rather than
imputed. -/
theorem final_tables_no_missing_values (rows : List RawRow) :
    (∀ p ∈ lahdProjectsFinal rows,
        p.developmentStage ≠ Cell.na ∧ p.constructionType ≠ Cell.na ∧
        p.housingType ≠ Cell.na ∧ p.supportiveHousing ≠ Cell.na ∧
        p.lahdFunded ≠ Cell.na ∧ p.leverage ≠ Cell.na ∧
        p.taxExemptConduitBond ≠ Cell.na ∧ p.totalDevelopmentCost ≠ Cell.na ∧
        p.projectTotalUnits ≠ Cell.na ∧ p.jobs ≠ Cell.na ∧
        p.yearFunded ≠ Cell.na ∧ p.costPerHousingUnit ≠ Cell.na) ∧
    (∀ q ∈ lahdProjectsNoJobs rows,
        q.developmentStage ≠ Cell.na ∧ q.constructionType ≠ Cell.na ∧
        q.housingType ≠ Cell.na ∧ q.supportiveHousing ≠ Cell.na ∧
        q.lahdFunded ≠ Cell.na ∧ q.leverage ≠ Cell.na ∧
        q.taxExemptConduitBond ≠ Cell.na ∧ q.totalDevelopmentCost ≠ Cell.na ∧
        q.projectTotalUnits ≠ Cell.na ∧
        q.yearFunded ≠ Cell.na ∧ q.costPerHousingUnit ≠ Cell.na) ∧
    (∀ p ∈ lahdProjects rows, p.hasNA = true → p ∉ lahdProjectsFinal rows) ∧
    (∀ q : ProjRowNJ, q.hasNA = true → q ∉ lahdProjectsNoJobs rows) := by
  refine ⟨?_, ?_, ?_, ?_⟩
  · intro p hp
    have h := (List.mem_filter.1 hp).2
    rw [Bool.not_eq_eq_eq_not, Bool.not_true] at h
    exact (projRow_hasNA_eq_false_iff p).1 h
  · intro q hq
    have h := (List.mem_filter.1 hq).2
    rw [Bool.not_eq_eq_eq_not, Bool.not_true] at h
    exact (projRowNJ_hasNA_eq_false_iff q).1 h
  · intro p _ hna hin
    have h := (List.mem_filter.1 hin).2
    rw [hna] at h
    exact absurd h (by decide)
  · intro q hna hin
    have h := (List.mem_filter.1 hin).2
    rw [hna] at h
    exact absurd h (by decide)

/-- Witness for C6: the concrete final `"P1"` row has no missing
retained field. -/
theorem final_tables_no_missing_values_witness :
    wP1.developmentStage ≠ Cell.na ∧ wP1.constructionType ≠ Cell.na ∧
    wP1.housingType ≠ Cell.na ∧ wP1.supportiveHousing ≠ Cell.na ∧
    wP1.lahdFunded ≠ Cell.na ∧ wP1.leverage ≠ Cell.na ∧
    wP1.taxExemptConduitBond ≠ Cell.na ∧ wP1.totalDevelopmentCost ≠ Cell.na ∧
    wP1.projectTotalUnits ≠ Cell.na ∧ wP1.jobs ≠ Cell.na ∧
    wP1.yearFunded ≠ Cell.na ∧ wP1.costPerHousingUnit ≠ Cell.na :=
  (final_tables_no_missing_values wRows).1 wP1 (by decide)

/-- C9: when some project row is complete except for a missing `JOBS`
value, the jobs-excluded variant table has at least as many rows as the
full table (its null-drop checks one column fewer, so it can only keep
more rows). -/
theorem no_jobs_variant_at_least_as_many_rows (rows : List RawRow)
    (_h : ∃ p ∈ lahdProjects rows,
        (dropJobsCol p).hasNA = false ∧ p.jobs = Cell.na) :
    (lahdProjectsFinal rows).length ≤ (lahdProjectsNoJobs rows).length := by
  unfold lahdProjectsFinal lahdProjectsNoJobs
  rw [← List.countP_eq_length_filter, ← List.countP_eq_length_filter,
    List.countP_map]
  apply List.countP_mono_left
  intro p _ hfull
  rw [Bool.not_eq_eq_eq_not, Bool.not_true] at hfull
  have := dropJobsCol_hasNA_le p hfull
  simp [Function.comp, this]

/-- Witness for C9 at the concrete table: project `"P2"` is complete
except for `JOBS`, and the jobs-excluded table (2 rows) is at least as
long as the full table (1 row). -/
theorem no_jobs_variant_at_least_as_many_rows_witness :
    (lahdProjectsFinal wRows).length ≤ (lahdProjectsNoJobs wRows).length :=
  no_jobs_variant_at_least_as_many_rows wRows
    ⟨wP2, by decide, by decide, by decide⟩

/-- If a project row's re-parsed `YEAR FUNDED` is present, its
`DATE FUNDED` string is a rendered `"YYYY-MM-DD"` date. -/
theorem mkProj_dateFunded_wellformed (r : RawRow) (n : Nat)
    (h : (mkProj r n).yearFunded ≠ Cell.na) :
    ∃ y m d, (mkProj r n).dateFunded = String.mk (fmtChars y m d) := by
  cases hc : r.dateFunded with
  | date y m d =>
    refine ⟨y, m, d, ?_⟩
    show String.mk ((dateChars r.dateFunded).take 10) = _
    rw [hc]
    show String.mk ((fmtChars y m d).take 10) = _
    rw [List.take_of_length_le (by simp [fmtChars, digits4, digits2])]
  | na =>
    refine absurd ?_ h
    show parseYearChars ((dateChars r.dateFunded).take 4) = Cell.na
    rw [hc]
    rfl
  | str s =>
    refine absurd ?_ h
    show parseYearChars ((dateChars r.dateFunded).take 4) = Cell.na
    rw [hc]
    rfl
  | num q =>
    refine absurd ?_ h
    show parseYearChars ((dateChars r.dateFunded).take 4) = Cell.na
    rw [hc]
    rfl
  | inf b =>
    refine absurd ?_ h
    show parseYearChars ((dateChars r.dateFunded).take 4) = Cell.na
    rw [hc]
    rfl

/-- A present `YEAR FUNDED` forces the displayed `DATE FUNDED` to be a
well-formed 10-character date string, never the text `"NaT"`. -/
theorem mkProj_dateFunded_props (r : RawRow) (n : Nat)
    (h : (mkProj r n).yearFunded ≠ Cell.na) :
    ∃ y m d, (mkProj r n).dateFunded = String.mk (fmtChars y m d) ∧
      (mkProj r n).dateFunded.length = 10 ∧ (mkProj r n).dateFunded ≠ "NaT" := by
  rcases mkProj_dateFunded_wellformed r n h with ⟨y, m, d, he⟩
  have hlen : (mkProj r n).dateFunded.length = 10 := by
    rw [he]
    show (fmtChars y m d).length = 10
    simp [fmtChars, digits4, digits2]
  refine ⟨y, m, d, he, hlen, ?_⟩
  intro hnat
  rw [hnat] at hlen
  exact absurd hlen (by decide)

/-- C10: every row of both terminal output tables carries a successfully
parsed funding date: the displayed `DATE FUNDED` is a 10-character
`"YYYY-MM-DD"` string and never the stringified placeholder `"NaT"`,
because a row whose date failed to parse gets a missing `YEAR FUNDED`
and is removed by the null-row drop. -/
theorem date_funded_never_nat_in_outputs (rows : List RawRow) :
    (∀ p ∈ lahdProjectsFinal rows, ∃ y m d,
        p.dateFunded = String.mk (fmtChars y m d) ∧
        p.dateFunded.length = 10 ∧ p.dateFunded ≠ "NaT") ∧
    (∀ q ∈ lahdProjectsNoJobs rows, ∃ y m d,
        q.dateFunded = String.mk (fmtChars y m d) ∧
        q.dateFunded.length = 10 ∧ q.dateFunded ≠ "NaT") := by
  constructor
  · intro p hp
    have hna := (List.mem_filter.1 hp).2
    rw [Bool.not_eq_eq_eq_not, Bool.not_true] at hna
    have hy := ((projRow_hasNA_eq_false_iff p).1 hna).2.2.2.2.2.2.2.2.2.2.1
    rcases lahdProjects_from_prepared rows p (List.mem_filter.1 hp).1 with
      ⟨r, _, he⟩
    subst he
    exact mkProj_dateFunded_props r _ hy
  · intro q hq
    have hna := (List.mem_filter.1 hq).2
    rw [Bool.not_eq_eq_eq_not, Bool.not_true] at hna
    have hy := ((projRowNJ_hasNA_eq_false_iff q).1 hna).2.2.2.2.2.2.2.2.2.1
    rcases List.mem_map.1 (List.mem_filter.1 hq).1 with ⟨p, hp, he⟩
    rcases lahdProjects_from_prepared rows p hp with ⟨r, _, he2⟩
    subst he2
    subst he
    exact mkProj_dateFunded_props r (siteCount rows r.projectNumber) hy

/-- Witness for C10: the concrete final `"P1"` row displays the
well-formed date `"2010-03-15"`. -/
theorem date_funded_never_nat_in_outputs_witness :
    ∃ y m d, wP1.dateFunded = String.mk (fmtChars y m d) ∧
      wP1.dateFunded.length = 10 ∧ wP1.dateFunded ≠ "NaT" :=
  (date_funded_never_nat_in_outputs wRows).1 wP1 (by decide)

/-- Counterexample to C2 as stated: with total development cost `100`
and `PROJECT TOTAL UNITS` present and equal to `0`, the computed
`COST PER HOUSING UNIT` is positive infinity, which is NOT a missing
value (so the zero-denominator case does not yield a missing value). -/
theorem cost_per_unit_zero_denominator_gives_infinity :
    (lahdProjects [rowC2]).map ProjRow.costPerHousingUnit = [Cell.inf true] ∧
    rowC2.projectTotalUnits = Cell.num 0 ∧
    (Cell.inf true).isNA = false ∧ Cell.inf true ≠ Cell.na := by
  exact ⟨by decide, by decide, by decide, by decide⟩

/-- C2 amended: for every row of the project table, `COST PER HOUSING
UNIT` equals the quotient of total development cost by total units when
both are present and the units value is nonzero; it is missing when
either operand is missing, or when both the cost and the units are zero;
but when the units value is zero and the cost is a nonzero number the
result is a signed infinity, not a missing value.  No runtime error is
raised in any case (the division is a total function). -/
theorem cost_per_unit_division_cases (rows : List RawRow) (p : ProjRow)
    (hp : p ∈ lahdProjects rows) :
    (p.totalDevelopmentCost = Cell.na ∨ p.projectTotalUnits = Cell.na →
        p.costPerHousingUnit = Cell.na) ∧
    (∀ a b : ℚ, p.totalDevelopmentCost = Cell.num a →
        p.projectTotalUnits = Cell.num b → b ≠ 0 →
        p.costPerHousingUnit = Cell.num (a / b)) ∧
    (∀ a : ℚ, p.totalDevelopmentCost = Cell.num a →
        p.projectTotalUnits = Cell.num 0 →
        p.costPerHousingUnit =
          (if a = 0 then Cell.na else Cell.inf (decide (0 < a)))) := by
  rcases mem_lahdProjects rows p hp with ⟨r, _, he⟩
  subst he
  refine ⟨?_, ?_, ?_⟩
  · intro hor
    show floatDiv r.totalDevelopmentCost r.projectTotalUnits = Cell.na
    rcases hor with h | h
    · rw [show r.totalDevelopmentCost = Cell.na from h]
      cases r.projectTotalUnits <;> rfl
    · rw [show r.projectTotalUnits = Cell.na from h]
      cases r.totalDevelopmentCost <;> rfl
  · intro a b ha hb hbne
    show floatDiv r.totalDevelopmentCost r.projectTotalUnits = _
    rw [show r.totalDevelopmentCost = Cell.num a from ha,
      show r.projectTotalUnits = Cell.num b from hb]
    simp only [floatDiv, if_neg hbne]
    rw [ratDiv_eq_div a b hbne]
  · intro a ha h0
    show floatDiv r.totalDevelopmentCost r.projectTotalUnits = _
    rw [show r.totalDevelopmentCost = Cell.num a from ha,
      show r.projectTotalUnits = Cell.num 0 from h0]
    simp [floatDiv]

/-- Witness for the amended C2: the concrete `"P1"` row divides cost
3000000 by 50 units. -/
theorem cost_per_unit_division_cases_witness :
    wP1.costPerHousingUnit = Cell.num ((3000000 : ℚ) / 50) :=
  (cost_per_unit_division_cases wRows wP1 (by decide)).2.1 3000000 50
    (by decide) (by decide) (by norm_num)

/-- Counterexample to C3 as stated: on a schema where the upstream
source already uses the descriptive names (`TOTAL DEVELOPMENT COST`,
`SITE NUMBER`) and the abbreviation columns `TDC` and `SITE #` are
absent, the pipeline does NOT fail: the pandas rename silently ignores
missing source columns and every later step finds the columns it needs,
so startup completes. -/
theorem schema_proceeds_without_abbreviation_columns :
    ("TDC" ∉ fullSchemaRenamed) ∧ ("SITE #" ∉ fullSchemaRenamed) ∧
    (schemaPipeline fullSchemaRenamed).isOk = true := by
  exact ⟨by decide, by decide, by decide⟩

/-- C3 amended: the rename itself never fails; the pipeline halts at
startup (with a `KeyError` from a later column selection) exactly when a
renamed target column is unavailable — that is, when `TDC` is absent and
no `TOTAL DEVELOPMENT COST` column exists, or `SITE #` is absent and no
`SITE NUMBER` column exists.  When the target name is already present
the pipeline proceeds silently. -/
theorem schema_halts_when_renamed_target_missing (cols : List String)
    (h : ("TDC" ∉ cols ∧ "TOTAL DEVELOPMENT COST" ∉ cols) ∨
         ("SITE #" ∉ cols ∧ "SITE NUMBER" ∉ cols)) :
    (schemaPipeline cols).isOk = false := by
  have hchecks : schemaChecks cols = false := by
    cases hsc : schemaChecks cols
    · rfl
    · exfalso
      have hall := hsc
      simp only [schemaChecks, Bool.and_eq_true, hasAllCols,
        List.all_eq_true] at hall
      obtain ⟨⟨⟨⟨⟨⟨hA, hB⟩, hC⟩, hD⟩, hE⟩, hF⟩, hG⟩ := hall
      rcases h with ⟨h1, h2⟩ | ⟨h1, h2⟩
      · have hmem : "TOTAL DEVELOPMENT COST" ∉ renameColumns cols := by
          intro hm
          rcases List.mem_map.1 hm with ⟨c, hc, hce⟩
          by_cases hc1 : c = "TDC"
          · exact h1 (hc1 ▸ hc)
          · by_cases hc2 : c = "SITE #"
            · rw [renameMap, if_neg hc1, if_pos hc2] at hce
              exact absurd hce (by decide)
            · rw [renameMap, if_neg hc1, if_neg hc2] at hce
              exact h2 (hce ▸ hc)
        have hb := hB "TOTAL DEVELOPMENT COST" (by simp [numericColumns])
        have hb2 : "TOTAL DEVELOPMENT COST" ∈ renameColumns cols := by
          simpa using hb
        exact hmem hb2
      · have hmem : "SITE NUMBER" ∉ renameColumns cols := by
          intro hm
          rcases List.mem_map.1 hm with ⟨c, hc, hce⟩
          by_cases hc1 : c = "TDC"
          · rw [renameMap, if_pos hc1] at hce
            exact absurd hce (by decide)
          · by_cases hc2 : c = "SITE #"
            · exact h1 (hc2 ▸ hc)
            · rw [renameMap, if_neg hc1, if_neg hc2] at hce
              exact h2 (hce ▸ hc)
        have hd := hD "SITE NUMBER" (by simp [categoricalColumns])
        have hd2 : "SITE NUMBER" ∈ renameColumns cols := by
          simpa using hd
        exact hmem hd2
  simp only [schemaPipeline, hchecks, if_neg Bool.false_ne_true]
  rfl

/-- Witness for the amended C3: removing `TOTAL DEVELOPMENT COST` from
the renamed schema (with `TDC` also absent) halts the startup. -/
theorem schema_halts_when_renamed_target_missing_witness :
    (schemaPipeline colsMissingTdc).isOk = false :=
  schema_halts_when_renamed_target_missing colsMissingTdc
    (Or.inl ⟨by decide, by decide⟩)
